import Mathlib

/-!
# examples/msal-go/token_credential.go

A shallow embedding of `clientAssertionBearerAuthorizerCallback`, `authResult.OAuthToken`
and `readJWTFromFS`.

Modelling conventions.

* A Go `string` is a Lean `String`; a `[]byte` is a `List Char`, one element per unit of
  content, and the conversion `string(b)` keeps every element in order.  All string
  constants of the program are ASCII, so that a suffix test against one of them gives
  the same answer on the characters of a text as on the bytes of its UTF-8 encoding.
* A Go `error` is a value carrying its `Error()` message; `nil` is `none`.
* A Go result pair `(v, err)` is a Lean pair `(v, err)` with `err : Option GoError`.
* The collaborators that live outside the file (`os.Getenv`, `os.ReadFile`,
  `confidential.NewCredFromAssertion`, `confidential.New`,
  `Client.AcquireTokenByCredential`) are fields of a record `Deps`; they act on an
  arbitrary host state `σ`, which is threaded through the calls in program order.
* Every call of a fallible collaborator is appended to a trace kept next to the host
  state, so that statements about which calls are made, how often and in which order
  are statements about that trace.
-/

namespace MsalGo

/-! ## Go library functions used by the file -/

/-- Go `strings.HasSuffix`:
`len(s) >= len(suffix) && s[len(s)-len(suffix):] == suffix`. -/
def HasSuffix (s suffix : String) : Bool :=
  decide (s.length ≥ suffix.length) && (s.data.drop (s.length - suffix.length) == suffix.data)

/-- Go `strings.TrimSuffix`:
`if HasSuffix(s, suffix) { return s[:len(s)-len(suffix)] }; return s`. -/
def TrimSuffix (s suffix : String) : String :=
  if HasSuffix s suffix then ⟨s.data.take (s.length - suffix.length)⟩ else s

/-- Expansion of a format: literal text is copied, and the first `%s` or `%v` verb is
replaced by the operand, when there still is one. -/
def expandFormat : List Char → Option String → List Char
  | [], _ => []
  | '%' :: 's' :: rest, some a => a.data ++ expandFormat rest none
  | '%' :: 'v' :: rest, some a => a.data ++ expandFormat rest none
  | c :: rest, arg => c :: expandFormat rest arg

/-- Go `fmt.Sprintf`, for the fragment the file uses: a format made of literal text and
one `%s` or `%v` verb, applied to one operand that prints as the string `a`. -/
def Sprintf (format : String) (a : String) : String :=
  ⟨expandFormat format.data (some a)⟩

/-- Go `error`: the value behind the interface is represented by its `Error()` message. -/
structure GoError where
  /-- Message returned by `Error()`. -/
  msg : String
deriving DecidableEq, Repr

/-- Method `Error()` of an error value. -/
def GoError.Error (e : GoError) : String := e.msg

/-- Function `errors.Errorf(format, err)` of `github.com/pkg/errors`: a fresh error whose
message is `fmt.Sprintf(format, err)`; the verb `%v` prints an error operand as
`err.Error()`. -/
def Errorf (format : String) (err : GoError) : GoError :=
  ⟨Sprintf format err.Error⟩

/-- Go conversion `string(b)` of a byte slice. -/
def string (b : List Char) : String := ⟨b⟩

/-- Go `time.Time`, a value the file only copies. -/
abbrev Time := Int

/-- Fields of `confidential.AuthResult` (MSAL) that the file reads. -/
structure AuthResult where
  /-- Field `AccessToken`. -/
  AccessToken : String
  /-- Field `ExpiresOn`. -/
  ExpiresOn : Time
  /-- Field `GrantedScopes`. -/
  GrantedScopes : List String
  /-- Field `DeclinedScopes`. -/
  DeclinedScopes : List String
deriving DecidableEq, Repr

/-! ## Data declared by the file -/

/-- Go `type authResult struct` (lines 17-22). -/
structure authResult where
  /-- Field `accessToken`. -/
  accessToken : String
  /-- Field `expiresOn`. -/
  expiresOn : Time
  /-- Field `grantedScopes`. -/
  grantedScopes : List String
  /-- Field `declinedScopes`. -/
  declinedScopes : List String
deriving DecidableEq, Repr

/-- Method `func (ar authResult) OAuthToken() string` (lines 76-78). -/
def authResult.OAuthToken (ar : authResult) : String :=
  ar.accessToken

/-- Go `autorest.BearerAuthorizer`: `autorest.NewBearerAuthorizer(tp)` stores the token
provider `tp` it is given. -/
structure BearerAuthorizer where
  /-- Field `tokenProvider`. -/
  tokenProvider : authResult
deriving DecidableEq, Repr

/-- Go `autorest.NewBearerAuthorizer`. -/
def NewBearerAuthorizer (tp : authResult) : BearerAuthorizer := ⟨tp⟩

/-! ## Collaborators and the call trace -/

/-- The collaborators outside the file, acting on a host state `σ`.  `Cred` is
`confidential.Credential`, `Client` is `confidential.Client`. -/
structure Deps (σ Cred Client : Type) where
  /-- Go `os.Getenv`: reads the process environment, `""` when the variable is unset. -/
  Getenv : String → σ → String
  /-- Go `os.ReadFile`. -/
  ReadFile : String → σ → (List Char × Option GoError) × σ
  /-- Go `confidential.NewCredFromAssertion`. -/
  NewCredFromAssertion : String → σ → (Cred × Option GoError) × σ
  /-- Go `confidential.New(clientID, cred, confidential.WithAuthority(authority))`. -/
  New : String → Cred → String → σ → (Client × Option GoError) × σ
  /-- Go `Client.AcquireTokenByCredential(ctx, scopes)`. -/
  AcquireTokenByCredential : Client → List String → σ → (AuthResult × Option GoError) × σ

/-- One recorded call of a fallible collaborator, with its arguments. -/
inductive Call (Cred Client : Type) where
  | ReadFile (name : String)
  | NewCredFromAssertion (assertion : String)
  | New (clientID : String) (cred : Cred) (authority : String)
  | AcquireTokenByCredential (app : Client) (scopes : List String)
deriving DecidableEq, Repr

/-- The four fallible steps. -/
inductive Step where
  | readFile
  | newCred
  | newClient
  | acquireToken
deriving DecidableEq, Repr

/-- The step a recorded call belongs to. -/
def Call.step {Cred Client : Type} : Call Cred Client → Step
  | .ReadFile _ => .readFile
  | .NewCredFromAssertion _ => .newCred
  | .New _ _ _ => .newClient
  | .AcquireTokenByCredential _ _ => .acquireToken

/-- Host state together with the calls made so far, oldest first. -/
structure World (σ Cred Client : Type) where
  /-- Host state. -/
  host : σ
  /-- Calls made so far. -/
  trace : List (Call Cred Client)

variable {σ Cred Client : Type}

/-- Call of `os.ReadFile`, recorded. -/
def callReadFile (d : Deps σ Cred Client) (name : String) (w : World σ Cred Client) :
    (List Char × Option GoError) × World σ Cred Client :=
  ((d.ReadFile name w.host).1, ⟨(d.ReadFile name w.host).2, w.trace ++ [.ReadFile name]⟩)

/-- Call of `confidential.NewCredFromAssertion`, recorded. -/
def callNewCredFromAssertion (d : Deps σ Cred Client) (assertion : String)
    (w : World σ Cred Client) : (Cred × Option GoError) × World σ Cred Client :=
  ((d.NewCredFromAssertion assertion w.host).1,
    ⟨(d.NewCredFromAssertion assertion w.host).2, w.trace ++ [.NewCredFromAssertion assertion]⟩)

/-- Call of `confidential.New`, recorded. -/
def callNew (d : Deps σ Cred Client) (clientID : String) (cred : Cred) (authority : String)
    (w : World σ Cred Client) : (Client × Option GoError) × World σ Cred Client :=
  ((d.New clientID cred authority w.host).1,
    ⟨(d.New clientID cred authority w.host).2, w.trace ++ [.New clientID cred authority]⟩)

/-- Call of `AcquireTokenByCredential`, recorded. -/
def callAcquireTokenByCredential (d : Deps σ Cred Client) (app : Client) (scopes : List String)
    (w : World σ Cred Client) : (AuthResult × Option GoError) × World σ Cred Client :=
  ((d.AcquireTokenByCredential app scopes w.host).1,
    ⟨(d.AcquireTokenByCredential app scopes w.host).2,
      w.trace ++ [.AcquireTokenByCredential app scopes]⟩)

/-! ## Functions of the file -/

/-- Go `func readJWTFromFS(tokenFilePath string) (string, error)` (lines 81-87). -/
def readJWTFromFS (d : Deps σ Cred Client) (tokenFilePath : String) (w : World σ Cred Client) :
    (String × Option GoError) × World σ Cred Client :=
  match callReadFile d tokenFilePath w with
  | ((_, some err), w1) => (("", some err), w1)
  | ((token, none), w1) => ((string token, none), w1)

/-- Lines 55-60 of `clientAssertionBearerAuthorizerCallback`: the value of `resource`
after the trim and the conditional append. -/
def normalizeScope (resource : String) : String :=
  let resource := TrimSuffix resource "/"
  if !HasSuffix resource ".default" then resource ++ "/.default" else resource

/-- Go `func clientAssertionBearerAuthorizerCallback(tenantID, resource string)
(*autorest.BearerAuthorizer, error)` (lines 24-73).  A `nil` authorizer is `none`. -/
def clientAssertionBearerAuthorizerCallback (d : Deps σ Cred Client)
    (tenantID resource : String) (w : World σ Cred Client) :
    (Option BearerAuthorizer × Option GoError) × World σ Cred Client :=
  let clientID := d.Getenv "AZURE_CLIENT_ID" w.host
  let tokenFilePath := d.Getenv "TOKEN_FILE_PATH" w.host
  match readJWTFromFS d tokenFilePath w with
  | ((_, some err), w1) =>
    ((none, some (Errorf "failed to read service account token: %v" err)), w1)
  | ((signedAssertion, none), w1) =>
    match callNewCredFromAssertion d signedAssertion w1 with
    | ((_, some err), w2) =>
      ((none, some (Errorf "failed to create confidential creds: %v" err)), w2)
    | ((cred, none), w2) =>
      match callNew d clientID cred
          (Sprintf "https://login.microsoftonline.com/%s/oauth2/token" tenantID) w2 with
      | ((_, some err), w3) =>
        ((none, some (Errorf "failed to create confidential client app: %v" err)), w3)
      | ((confidentialClientApp, none), w3) =>
        let resource := normalizeScope resource
        match callAcquireTokenByCredential d confidentialClientApp [resource] w3 with
        | ((_, some err), w4) =>
          ((none, some (Errorf "failed to get token: %v" err)), w4)
        | ((result, none), w4) =>
          ((some (NewBearerAuthorizer
              { accessToken := result.AccessToken
                expiresOn := result.ExpiresOn
                grantedScopes := result.GrantedScopes
                declinedScopes := result.DeclinedScopes }), none), w4)

/-- The invocation started in host state `s` with an empty trace. -/
def run (d : Deps σ Cred Client) (tenantID resource : String) (s : σ) :
    (Option BearerAuthorizer × Option GoError) × World σ Cred Client :=
  clientAssertionBearerAuthorizerCallback d tenantID resource ⟨s, []⟩

/-- The calls made by the invocation started in host state `s`. -/
def calls (d : Deps σ Cred Client) (tenantID resource : String) (s : σ) :
    List (Call Cred Client) :=
  (run d tenantID resource s).2.trace

/-- The steps attempted by the invocation started in host state `s`, in order. -/
def steps (d : Deps σ Cred Client) (tenantID resource : String) (s : σ) : List Step :=
  (calls d tenantID resource s).map Call.step

/-- The words of the specification: `strip_trailing_slash` removes a trailing `/` from `r`
if it has one. -/
def strip_trailing_slash (r : String) : String :=
  if r.data.getLast? = some '/' then ⟨r.data.dropLast⟩ else r

/-! ## A sample host -/

/-- A sample set of collaborators.  The host state counts the calls made.  The process
environment defines `AZURE_CLIENT_ID`, and `TOKEN_FILE_PATH` as `tokenFilePath`; the file
system holds one file, `/var/run/secrets/tokens/azure-identity-token`; the step
`failing`, when there is one, reports an error. -/
def sampleDeps (tokenFilePath : String) (failing : Option Step) : Deps Nat String String where
  Getenv key _ :=
    if key = "AZURE_CLIENT_ID" then "client-a"
    else if key = "TOKEN_FILE_PATH" then tokenFilePath
    else ""
  ReadFile name n :=
    if name = "/var/run/secrets/tokens/azure-identity-token" then
      (("header.payload.signature\n".data, none), n + 1)
    else
      (([], some ⟨"open " ++ name ++ ": no such file or directory"⟩), n + 1)
  NewCredFromAssertion assertion n :=
    if failing = some .newCred then (("", some ⟨"bad assertion"⟩), n + 1)
    else ((assertion, none), n + 1)
  New clientID _ authority n :=
    if failing = some .newClient then (("", some ⟨"bad authority"⟩), n + 1)
    else ((clientID ++ "@" ++ authority, none), n + 1)
  AcquireTokenByCredential _ scopes n :=
    if failing = some .acquireToken then ((⟨"", 0, [], []⟩, some ⟨"invalid_grant"⟩), n + 1)
    else ((⟨"access-token-1", 1700000000, scopes, ["declined"]⟩, none), n + 1)

/-- The path of the one file of the sample host. -/
def samplePath : String := "/var/run/secrets/tokens/azure-identity-token"

/-! ## Facts about the string functions -/

theorem HasSuffix_iff (s t : String) : HasSuffix s t = true ↔ t.data <:+ s.data := by
  unfold HasSuffix
  simp only [Bool.and_eq_true, decide_eq_true_eq, beq_iff_eq, String.length]
  constructor
  · rintro ⟨_, h⟩
    exact h ▸ List.drop_suffix _ _
  · intro h
    refine ⟨h.length_le, ?_⟩
    exact (List.suffix_iff_eq_drop.mp h).symm

theorem HasSuffix_eq_false_iff (s t : String) : HasSuffix s t = false ↔ ¬ t.data <:+ s.data := by
  rw [← HasSuffix_iff, Bool.not_eq_true]

theorem TrimSuffix_append (p t : String) : TrimSuffix (p ++ t) t = p := by
  have h : HasSuffix (p ++ t) t = true := (HasSuffix_iff _ _).mpr ⟨p.data, rfl⟩
  unfold TrimSuffix
  rw [if_pos h]
  apply String.ext
  show (p.data ++ t.data).take ((p.data ++ t.data).length - t.data.length) = p.data
  rw [List.length_append, Nat.add_sub_cancel, List.take_left']
  rfl

theorem TrimSuffix_of_not (s t : String) (h : HasSuffix s t = false) : TrimSuffix s t = s := by
  unfold TrimSuffix
  simp [h]

theorem getLast?_of_suffix {l t : List Char} (h : t <:+ l) (ht : t ≠ []) :
    l.getLast? = t.getLast? := by
  obtain ⟨p, rfl⟩ := h
  cases t with
  | nil => exact absurd rfl ht
  | cons a u =>
    rw [List.getLast?_append, List.getLast?_eq_getLast (a :: u) (by simp)]
    rfl

theorem slash_suffix_iff (l : List Char) : ['/'] <:+ l ↔ l.getLast? = some '/' := by
  constructor
  · intro h
    rw [getLast?_of_suffix h (by simp)]
    rfl
  · intro h
    refine ⟨l.dropLast, ?_⟩
    have hne : l ≠ [] := by
      rintro rfl
      simp at h
    have h2 := List.dropLast_append_getLast hne
    rw [List.getLast?_eq_getLast l hne] at h
    simp only [Option.some.injEq] at h
    rw [h] at h2
    exact h2

theorem TrimSuffix_slash (r : String) : TrimSuffix r "/" = strip_trailing_slash r := by
  unfold TrimSuffix strip_trailing_slash
  by_cases h : r.data.getLast? = some '/'
  · have h1 : HasSuffix r "/" = true := (HasSuffix_iff _ _).mpr ((slash_suffix_iff _).mpr h)
    rw [if_pos h1, if_pos h]
    apply String.ext
    show r.data.take (r.data.length - 1) = r.data.dropLast
    rw [List.dropLast_eq_take]
  · have h1 : ¬ HasSuffix r "/" = true := fun hs => h ((slash_suffix_iff _).mp ((HasSuffix_iff _ _).mp hs))
    rw [if_neg h1, if_neg h]

theorem not_slash_of_default (y : String) (h : HasSuffix y ".default" = true) :
    HasSuffix y "/" = false := by
  rw [HasSuffix_eq_false_iff]
  intro hs
  have h1 := getLast?_of_suffix ((HasSuffix_iff _ _).mp h) (by decide)
  have h2 := (slash_suffix_iff _).mp hs
  rw [h1] at h2
  exact absurd h2 (by decide)

theorem normalizeScope_of_default (y : String) (h : HasSuffix y ".default" = true) :
    normalizeScope y = y := by
  unfold normalizeScope
  simp [TrimSuffix_of_not y "/" (not_slash_of_default y h), h]

theorem normalizeScope_hasSuffix (r : String) : HasSuffix (normalizeScope r) ".default" = true := by
  unfold normalizeScope
  by_cases h : HasSuffix (TrimSuffix r "/") ".default" = true
  · simp [h]
  · simp only [h, Bool.not_eq_true] 
    simp only [Bool.not_eq_true] at h
    simp only [h, Bool.not_false, if_true]
    exact (HasSuffix_iff _ _).mpr ⟨(TrimSuffix r "/").data ++ ['/'], by simp⟩

/-! ## The five paths through `clientAssertionBearerAuthorizerCallback` -/

/-- The authority string of line 50. -/
theorem authority_eq (tenantID : String) :
    Sprintf "https://login.microsoftonline.com/%s/oauth2/token" tenantID =
      "https://login.microsoftonline.com/" ++ tenantID ++ "/oauth2/token" :=
  rfl

/-- The message of `errors.Errorf(m ++ ": %v", e)`, for the four messages of the file. -/
theorem Errorf_msg (e : GoError) :
    (Errorf "failed to read service account token: %v" e).msg =
        "failed to read service account token" ++ ": " ++ e.msg ∧
      (Errorf "failed to create confidential creds: %v" e).msg =
        "failed to create confidential creds" ++ ": " ++ e.msg ∧
      (Errorf "failed to create confidential client app: %v" e).msg =
        "failed to create confidential client app" ++ ": " ++ e.msg ∧
      (Errorf "failed to get token: %v" e).msg = "failed to get token" ++ ": " ++ e.msg := by
  refine ⟨?_, ?_, ?_, ?_⟩
  · apply String.ext
    show "failed to read service account token: ".data ++ (e.msg.data ++ []) = _
    rw [List.append_nil]
    rfl
  · apply String.ext
    show "failed to create confidential creds: ".data ++ (e.msg.data ++ []) = _
    rw [List.append_nil]
    rfl
  · apply String.ext
    show "failed to create confidential client app: ".data ++ (e.msg.data ++ []) = _
    rw [List.append_nil]
    rfl
  · apply String.ext
    show "failed to get token: ".data ++ (e.msg.data ++ []) = _
    rw [List.append_nil]
    rfl

theorem run_readFile_fails (d : Deps σ Cred Client) (tenantID resource : String) (s : σ)
    (c : List Char) (e : GoError) (s1 : σ)
    (h1 : d.ReadFile (d.Getenv "TOKEN_FILE_PATH" s) s = ((c, some e), s1)) :
    run d tenantID resource s =
      ((none, some (Errorf "failed to read service account token: %v" e)),
        ⟨s1, [.ReadFile (d.Getenv "TOKEN_FILE_PATH" s)]⟩) := by
  simp [run, clientAssertionBearerAuthorizerCallback, readJWTFromFS, callReadFile, h1]

theorem run_newCred_fails (d : Deps σ Cred Client) (tenantID resource : String) (s : σ)
    (c : List Char) (s1 : σ) (cr : Cred) (e : GoError) (s2 : σ)
    (h1 : d.ReadFile (d.Getenv "TOKEN_FILE_PATH" s) s = ((c, none), s1))
    (h2 : d.NewCredFromAssertion (string c) s1 = ((cr, some e), s2)) :
    run d tenantID resource s =
      ((none, some (Errorf "failed to create confidential creds: %v" e)),
        ⟨s2, [.ReadFile (d.Getenv "TOKEN_FILE_PATH" s), .NewCredFromAssertion (string c)]⟩) := by
  simp [run, clientAssertionBearerAuthorizerCallback, readJWTFromFS, callReadFile,
    callNewCredFromAssertion, h1, h2]

theorem run_new_fails (d : Deps σ Cred Client) (tenantID resource : String) (s : σ)
    (c : List Char) (s1 : σ) (cr : Cred) (s2 : σ) (app : Client) (e : GoError) (s3 : σ)
    (h1 : d.ReadFile (d.Getenv "TOKEN_FILE_PATH" s) s = ((c, none), s1))
    (h2 : d.NewCredFromAssertion (string c) s1 = ((cr, none), s2))
    (h3 : d.New (d.Getenv "AZURE_CLIENT_ID" s) cr
      (Sprintf "https://login.microsoftonline.com/%s/oauth2/token" tenantID) s2 =
        ((app, some e), s3)) :
    run d tenantID resource s =
      ((none, some (Errorf "failed to create confidential client app: %v" e)),
        ⟨s3, [.ReadFile (d.Getenv "TOKEN_FILE_PATH" s), .NewCredFromAssertion (string c),
          .New (d.Getenv "AZURE_CLIENT_ID" s) cr
            (Sprintf "https://login.microsoftonline.com/%s/oauth2/token" tenantID)]⟩) := by
  simp [run, clientAssertionBearerAuthorizerCallback, readJWTFromFS, callReadFile,
    callNewCredFromAssertion, callNew, h1, h2, h3]

theorem run_acquire_fails (d : Deps σ Cred Client) (tenantID resource : String) (s : σ)
    (c : List Char) (s1 : σ) (cr : Cred) (s2 : σ) (app : Client) (s3 : σ)
    (res : AuthResult) (e : GoError) (s4 : σ)
    (h1 : d.ReadFile (d.Getenv "TOKEN_FILE_PATH" s) s = ((c, none), s1))
    (h2 : d.NewCredFromAssertion (string c) s1 = ((cr, none), s2))
    (h3 : d.New (d.Getenv "AZURE_CLIENT_ID" s) cr
      (Sprintf "https://login.microsoftonline.com/%s/oauth2/token" tenantID) s2 =
        ((app, none), s3))
    (h4 : d.AcquireTokenByCredential app [normalizeScope resource] s3 = ((res, some e), s4)) :
    run d tenantID resource s =
      ((none, some (Errorf "failed to get token: %v" e)),
        ⟨s4, [.ReadFile (d.Getenv "TOKEN_FILE_PATH" s), .NewCredFromAssertion (string c),
          .New (d.Getenv "AZURE_CLIENT_ID" s) cr
            (Sprintf "https://login.microsoftonline.com/%s/oauth2/token" tenantID),
          .AcquireTokenByCredential app [normalizeScope resource]]⟩) := by
  simp [run, clientAssertionBearerAuthorizerCallback, readJWTFromFS, callReadFile,
    callNewCredFromAssertion, callNew, callAcquireTokenByCredential, h1, h2, h3, h4]

theorem run_success (d : Deps σ Cred Client) (tenantID resource : String) (s : σ)
    (c : List Char) (s1 : σ) (cr : Cred) (s2 : σ) (app : Client) (s3 : σ)
    (res : AuthResult) (s4 : σ)
    (h1 : d.ReadFile (d.Getenv "TOKEN_FILE_PATH" s) s = ((c, none), s1))
    (h2 : d.NewCredFromAssertion (string c) s1 = ((cr, none), s2))
    (h3 : d.New (d.Getenv "AZURE_CLIENT_ID" s) cr
      (Sprintf "https://login.microsoftonline.com/%s/oauth2/token" tenantID) s2 =
        ((app, none), s3))
    (h4 : d.AcquireTokenByCredential app [normalizeScope resource] s3 = ((res, none), s4)) :
    run d tenantID resource s =
      ((some (NewBearerAuthorizer ⟨res.AccessToken, res.ExpiresOn, res.GrantedScopes,
          res.DeclinedScopes⟩), none),
        ⟨s4, [.ReadFile (d.Getenv "TOKEN_FILE_PATH" s), .NewCredFromAssertion (string c),
          .New (d.Getenv "AZURE_CLIENT_ID" s) cr
            (Sprintf "https://login.microsoftonline.com/%s/oauth2/token" tenantID),
          .AcquireTokenByCredential app [normalizeScope resource]]⟩) := by
  simp [run, clientAssertionBearerAuthorizerCallback, readJWTFromFS, callReadFile,
    callNewCredFromAssertion, callNew, callAcquireTokenByCredential, h1, h2, h3, h4]

/-- The calls of an invocation are an initial part of the four calls of the success
path, with the arguments the file computes; the invocation succeeds only when all four
are made, and reports an error otherwise. -/
theorem calls_cases (d : Deps σ Cred Client) (tenantID resource : String) (s : σ) :
    ∃ (c : List Char) (cr : Cred) (app : Client),
      ((run d tenantID resource s).1.1 = none ∧ (run d tenantID resource s).1.2 ≠ none ∧
        (calls d tenantID resource s = [.ReadFile (d.Getenv "TOKEN_FILE_PATH" s)] ∨
          calls d tenantID resource s = [.ReadFile (d.Getenv "TOKEN_FILE_PATH" s),
            .NewCredFromAssertion (string c)] ∨
          calls d tenantID resource s = [.ReadFile (d.Getenv "TOKEN_FILE_PATH" s),
            .NewCredFromAssertion (string c),
            .New (d.Getenv "AZURE_CLIENT_ID" s) cr
              (Sprintf "https://login.microsoftonline.com/%s/oauth2/token" tenantID)] ∨
          calls d tenantID resource s = [.ReadFile (d.Getenv "TOKEN_FILE_PATH" s),
            .NewCredFromAssertion (string c),
            .New (d.Getenv "AZURE_CLIENT_ID" s) cr
              (Sprintf "https://login.microsoftonline.com/%s/oauth2/token" tenantID),
            .AcquireTokenByCredential app [normalizeScope resource]])) ∨
      ((run d tenantID resource s).1.1 ≠ none ∧ (run d tenantID resource s).1.2 = none ∧
        calls d tenantID resource s = [.ReadFile (d.Getenv "TOKEN_FILE_PATH" s),
          .NewCredFromAssertion (string c),
          .New (d.Getenv "AZURE_CLIENT_ID" s) cr
            (Sprintf "https://login.microsoftonline.com/%s/oauth2/token" tenantID),
          .AcquireTokenByCredential app [normalizeScope resource]]) := by
  rcases h1 : d.ReadFile (d.Getenv "TOKEN_FILE_PATH" s) s with ⟨⟨c, _ | e⟩, s1⟩
  · rcases h2 : d.NewCredFromAssertion (string c) s1 with ⟨⟨cr, _ | e⟩, s2⟩
    · rcases h3 : d.New (d.Getenv "AZURE_CLIENT_ID" s) cr
        (Sprintf "https://login.microsoftonline.com/%s/oauth2/token" tenantID) s2 with
        ⟨⟨app, _ | e⟩, s3⟩
      · rcases h4 : d.AcquireTokenByCredential app [normalizeScope resource] s3 with
          ⟨⟨res, _ | e⟩, s4⟩
        · refine ⟨c, cr, app, Or.inr ?_⟩
          simp [calls, run_success d tenantID resource s c s1 cr s2 app s3 res s4 h1 h2 h3 h4]
        · refine ⟨c, cr, app, Or.inl ?_⟩
          simp [calls, run_acquire_fails d tenantID resource s c s1 cr s2 app s3 res e s4 h1 h2 h3 h4]
      · refine ⟨c, cr, app, Or.inl ?_⟩
        simp [calls, run_new_fails d tenantID resource s c s1 cr s2 app e s3 h1 h2 h3]
    · refine ⟨c, cr, (d.New "" cr "" s2).1.1, Or.inl ?_⟩
      simp [calls, run_newCred_fails d tenantID resource s c s1 cr e s2 h1 h2]
  · refine ⟨c, (d.NewCredFromAssertion "" s1).1.1,
      (d.New "" (d.NewCredFromAssertion "" s1).1.1 "" s1).1.1, Or.inl ?_⟩
    simp [calls, run_readFile_fails d tenantID resource s c e s1 h1]

/-! ## Scope normalisation (lines 55-60) -/

/-- C1, as stated, fails: the resource `https://vault.azure.net/.default/` does not end
in `/.default`, its scope is `https://vault.azure.net/.default`, and that is not
`strip_trailing_slash(r) ++ "/.default"`. -/
theorem C1_counterexample :
    HasSuffix "https://vault.azure.net/.default/" "/.default" = false ∧
      normalizeScope "https://vault.azure.net/.default/" = "https://vault.azure.net/.default" ∧
      normalizeScope "https://vault.azure.net/.default/" ≠
        strip_trailing_slash "https://vault.azure.net/.default/" ++ "/.default" := by
  decide

/-- C1, amended: for every resource `r` whose form without one trailing `/` does not end
in `.default`, the scope computed by lines 55-60 is `strip_trailing_slash(r) ++ "/.default"`;
`https://vault.azure.net` and `https://vault.azure.net/` both give
`https://vault.azure.net/.default`. -/
theorem C1_scope_of_stripped :
    (∀ r : String, HasSuffix (strip_trailing_slash r) ".default" = false →
      normalizeScope r = strip_trailing_slash r ++ "/.default") ∧
    normalizeScope "https://vault.azure.net" = "https://vault.azure.net/.default" ∧
    normalizeScope "https://vault.azure.net/" = "https://vault.azure.net/.default" := by
  refine ⟨?_, by decide, by decide⟩
  intro r h
  unfold normalizeScope
  simp only [TrimSuffix_slash, h, Bool.not_false, if_true]

/-- Witness of C1, amended, at `https://vault.azure.net/`. -/
theorem C1_scope_of_stripped_witness :
    HasSuffix (strip_trailing_slash "https://vault.azure.net/") ".default" = false ∧
      normalizeScope "https://vault.azure.net/" =
        strip_trailing_slash "https://vault.azure.net/" ++ "/.default" :=
  ⟨by decide, C1_scope_of_stripped.1 "https://vault.azure.net/" (by decide)⟩

/-- C2: for every resource string, the empty one and `/` included, a call of
`AcquireTokenByCredential` made by `clientAssertionBearerAuthorizerCallback` receives
exactly one scope, the value computed by lines 55-60, and that scope ends in `.default`. -/
theorem C2_scope_ends_in_default (d : Deps σ Cred Client) (tenantID resource : String) (s : σ)
    (app : Client) (scopes : List String)
    (h : Call.AcquireTokenByCredential app scopes ∈ calls d tenantID resource s) :
    scopes = [normalizeScope resource] ∧
      HasSuffix (normalizeScope resource) ".default" = true := by
  refine ⟨?_, normalizeScope_hasSuffix resource⟩
  obtain ⟨c, cr, app', hc⟩ := calls_cases d tenantID resource s
  rcases hc with ⟨_, _, hc | hc | hc | hc⟩ | ⟨_, _, hc⟩ <;>
    · rw [hc] at h
      simp at h
      try exact h.2

/-- Witness of C2: the sample host, asked for the resource `/`. -/
theorem C2_scope_ends_in_default_witness :
    Call.AcquireTokenByCredential
        "client-a@https://login.microsoftonline.com/tenant-1/oauth2/token" ["/.default"] ∈
        calls (sampleDeps samplePath none) "tenant-1" "/" 0 ∧
      ["/.default"] = [normalizeScope "/"] ∧ HasSuffix (normalizeScope "/") ".default" = true :=
  ⟨by decide, C2_scope_ends_in_default (sampleDeps samplePath none) "tenant-1" "/" 0
    "client-a@https://login.microsoftonline.com/tenant-1/oauth2/token" ["/.default"]
    (by decide)⟩

/-- C3: for every resource `r` that already ends in `.default`, normalising the
normalised value of `r` gives the same string as normalising `r` once. -/
theorem C3_normalize_idempotent (r : String) (h : HasSuffix r ".default" = true) :
    normalizeScope (normalizeScope r) = normalizeScope r := by
  rw [normalizeScope_of_default r h, normalizeScope_of_default r h]

/-- Witness of C3 at `https://vault.azure.net/.default`. -/
theorem C3_normalize_idempotent_witness :
    HasSuffix "https://vault.azure.net/.default" ".default" = true ∧
      normalizeScope (normalizeScope "https://vault.azure.net/.default") =
        normalizeScope "https://vault.azure.net/.default" :=
  ⟨by decide, C3_normalize_idempotent "https://vault.azure.net/.default" (by decide)⟩

/-- C10: lines 55-60 remove at most one trailing `/`: for every string `s`, the resource
`s ++ "//"` is normalised to `s ++ "//.default"`. -/
theorem C10_double_slash (s : String) : normalizeScope (s ++ "//") = s ++ "//.default" := by
  have e1 : s ++ "//" = (s ++ "/") ++ "/" := by
    rw [String.append_assoc]
    rfl
  have e2 : TrimSuffix (s ++ "//") "/" = s ++ "/" := by
    rw [e1, TrimSuffix_append]
  have e3 : HasSuffix (s ++ "/") ".default" = false := by
    rw [HasSuffix_eq_false_iff]
    intro hs
    have h1 := getLast?_of_suffix hs (by decide)
    have h2 : (s ++ "/").data.getLast? = some '/' :=
      (slash_suffix_iff _).mp ⟨s.data, rfl⟩
    rw [h2] at h1
    exact absurd h1 (by decide)
  unfold normalizeScope
  simp only [e2, e3, Bool.not_false, if_true]
  rw [String.append_assoc]
  rfl

/-! ## Reading the token file (lines 38-41 and 81-87) -/

/-- C4: whenever reading the token file fails, `clientAssertionBearerAuthorizerCallback`
returns an error and no authorizer, and the only call it makes is the read: there is no
call of `NewCredFromAssertion`, of `confidential.New` or of `AcquireTokenByCredential`. -/
theorem C4_read_failure_stops (d : Deps σ Cred Client) (tenantID resource : String) (s : σ)
    (c : List Char) (e : GoError) (s1 : σ)
    (h1 : d.ReadFile (d.Getenv "TOKEN_FILE_PATH" s) s = ((c, some e), s1)) :
    (run d tenantID resource s).1.1 = none ∧
      (run d tenantID resource s).1.2.isSome = true ∧
      calls d tenantID resource s = [.ReadFile (d.Getenv "TOKEN_FILE_PATH" s)] ∧
      Step.newCred ∉ steps d tenantID resource s ∧
      Step.newClient ∉ steps d tenantID resource s ∧
      Step.acquireToken ∉ steps d tenantID resource s := by
  simp [steps, calls, run_readFile_fails d tenantID resource s c e s1 h1, Call.step]

/-- Witness of C4: the sample host with `TOKEN_FILE_PATH` unset, so that the path read is
the empty one. -/
theorem C4_read_failure_stops_witness :
    (sampleDeps "" none).Getenv "TOKEN_FILE_PATH" 0 = "" ∧
      (sampleDeps "" none).ReadFile "" 0 =
        (([], some ⟨"open : no such file or directory"⟩), 1) ∧
      (run (sampleDeps "" none) "tenant-1" "https://vault.azure.net" 0).1.1 = none ∧
      (run (sampleDeps "" none) "tenant-1" "https://vault.azure.net" 0).1.2.isSome = true ∧
      calls (sampleDeps "" none) "tenant-1" "https://vault.azure.net" 0 = [.ReadFile ""] ∧
      Step.newCred ∉ steps (sampleDeps "" none) "tenant-1" "https://vault.azure.net" 0 ∧
      Step.newClient ∉ steps (sampleDeps "" none) "tenant-1" "https://vault.azure.net" 0 ∧
      Step.acquireToken ∉ steps (sampleDeps "" none) "tenant-1" "https://vault.azure.net" 0 :=
  ⟨by decide, by decide,
    C4_read_failure_stops (sampleDeps "" none) "tenant-1" "https://vault.azure.net" 0
      [] ⟨"open : no such file or directory"⟩ 1 (by decide)⟩

/-- C9: when the underlying read succeeds with content `c`, `readJWTFromFS` returns the
string made of exactly the elements of `c`, the empty content included, with no error,
and that string is the assertion passed to `NewCredFromAssertion`; when the underlying
read fails with error `e`, `readJWTFromFS` returns the empty string together with `e`. -/
theorem C9_readJWTFromFS (d : Deps σ Cred Client) (tokenFilePath : String)
    (w : World σ Cred Client) (tenantID resource : String) (s : σ) :
    (∀ c s1, d.ReadFile tokenFilePath w.host = ((c, none), s1) →
      (readJWTFromFS d tokenFilePath w).1 = (string c, none) ∧ (string c).data = c) ∧
    (∀ c e s1, d.ReadFile tokenFilePath w.host = ((c, some e), s1) →
      (readJWTFromFS d tokenFilePath w).1 = ("", some e)) ∧
    (∀ c s1, d.ReadFile (d.Getenv "TOKEN_FILE_PATH" s) s = ((c, none), s1) →
      (calls d tenantID resource s)[1]? = some (.NewCredFromAssertion (string c))) := by
  refine ⟨?_, ?_, ?_⟩
  · intro c s1 h
    simp [readJWTFromFS, callReadFile, h, string]
  · intro c e s1 h
    simp [readJWTFromFS, callReadFile, h]
  · intro c s1 h1
    rcases h2 : d.NewCredFromAssertion (string c) s1 with ⟨⟨cr, _ | e⟩, s2⟩
    · rcases h3 : d.New (d.Getenv "AZURE_CLIENT_ID" s) cr
        (Sprintf "https://login.microsoftonline.com/%s/oauth2/token" tenantID) s2 with
        ⟨⟨app, _ | e⟩, s3⟩
      · rcases h4 : d.AcquireTokenByCredential app [normalizeScope resource] s3 with
          ⟨⟨res, _ | e⟩, s4⟩
        · simp [calls, run_success d tenantID resource s c s1 cr s2 app s3 res s4 h1 h2 h3 h4]
        · simp [calls,
            run_acquire_fails d tenantID resource s c s1 cr s2 app s3 res e s4 h1 h2 h3 h4]
      · simp [calls, run_new_fails d tenantID resource s c s1 cr s2 app e s3 h1 h2 h3]
    · simp [calls, run_newCred_fails d tenantID resource s c s1 cr e s2 h1 h2]

/-- Witness of C9: the sample host, whose token file ends in a newline, and a missing
file. -/
theorem C9_readJWTFromFS_witness :
    ((sampleDeps samplePath none).ReadFile samplePath 0 =
        (("header.payload.signature\n".data, none), 1) ∧
      (readJWTFromFS (sampleDeps samplePath none) samplePath
        (⟨0, []⟩ : World Nat String String)).1 = ("header.payload.signature\n", none)) ∧
    ((sampleDeps samplePath none).ReadFile "/missing" 0 =
        (([], some ⟨"open /missing: no such file or directory"⟩), 1) ∧
      (readJWTFromFS (sampleDeps samplePath none) "/missing"
        (⟨0, []⟩ : World Nat String String)).1 =
          ("", some ⟨"open /missing: no such file or directory"⟩)) ∧
    (calls (sampleDeps samplePath none) "tenant-1" "https://vault.azure.net" 0)[1]? =
      some (.NewCredFromAssertion "header.payload.signature\n") :=
  ⟨⟨by decide,
      ((C9_readJWTFromFS (sampleDeps samplePath none) samplePath ⟨0, []⟩ "tenant-1"
        "https://vault.azure.net" 0).1 "header.payload.signature\n".data 1 (by decide)).1⟩,
    ⟨by decide,
      (C9_readJWTFromFS (sampleDeps samplePath none) "/missing" ⟨0, []⟩ "tenant-1"
        "https://vault.azure.net" 0).2.1 [] ⟨"open /missing: no such file or directory"⟩ 1
        (by decide)⟩,
    (C9_readJWTFromFS (sampleDeps samplePath none) samplePath ⟨0, []⟩ "tenant-1"
      "https://vault.azure.net" 0).2.2 "header.payload.signature\n".data 1 (by decide)⟩

/-! ## The result of the invocation -/

/-- C5: when the file read, the credential construction, the client construction and the
token request all succeed and the library returns the result `res`, the invocation
returns no error and an authorizer built from an `authResult` whose `OAuthToken()` is
exactly `res.AccessToken`; and `OAuthToken()` of any `authResult` is its `accessToken`,
whatever the other three fields are. -/
theorem C5_authorizer_token (d : Deps σ Cred Client) (tenantID resource : String) (s : σ)
    (c : List Char) (s1 : σ) (cr : Cred) (s2 : σ) (app : Client) (s3 : σ)
    (res : AuthResult) (s4 : σ)
    (h1 : d.ReadFile (d.Getenv "TOKEN_FILE_PATH" s) s = ((c, none), s1))
    (h2 : d.NewCredFromAssertion (string c) s1 = ((cr, none), s2))
    (h3 : d.New (d.Getenv "AZURE_CLIENT_ID" s) cr
      (Sprintf "https://login.microsoftonline.com/%s/oauth2/token" tenantID) s2 =
        ((app, none), s3))
    (h4 : d.AcquireTokenByCredential app [normalizeScope resource] s3 = ((res, none), s4)) :
    (run d tenantID resource s).1.2 = none ∧
      (∃ ar : authResult, (run d tenantID resource s).1.1 = some (NewBearerAuthorizer ar) ∧
        ar.OAuthToken = res.AccessToken) ∧
      (∀ (t : String) (expiry : Time) (granted declined : List String),
        (authResult.mk t expiry granted declined).OAuthToken = t) ∧
      (∀ ar : authResult, ar.OAuthToken = ar.accessToken) := by
  rw [run_success d tenantID resource s c s1 cr s2 app s3 res s4 h1 h2 h3 h4]
  exact ⟨rfl, ⟨_, rfl, rfl⟩, fun _ _ _ _ => rfl, fun _ => rfl⟩

/-- Witness of C5: the sample host with its token file in place. -/
theorem C5_authorizer_token_witness :
    (run (sampleDeps samplePath none) "tenant-1" "https://vault.azure.net/" 0).1.2 = none ∧
      (∃ ar : authResult,
        (run (sampleDeps samplePath none) "tenant-1" "https://vault.azure.net/" 0).1.1 =
          some (NewBearerAuthorizer ar) ∧
        ar.OAuthToken = "access-token-1") ∧
      (∀ (t : String) (expiry : Time) (granted declined : List String),
        (authResult.mk t expiry granted declined).OAuthToken = t) ∧
      (∀ ar : authResult, ar.OAuthToken = ar.accessToken) :=
  C5_authorizer_token (sampleDeps samplePath none) "tenant-1" "https://vault.azure.net/" 0
    "header.payload.signature\n".data 1 "header.payload.signature\n" 2
    "client-a@https://login.microsoftonline.com/tenant-1/oauth2/token" 3
    ⟨"access-token-1", 1700000000, ["https://vault.azure.net/.default"], ["declined"]⟩ 4
    (by decide) (by decide) (by decide) (by decide)

/-- C6: for each of the four steps, when that step is the first to fail, with cause `e`,
the invocation returns no authorizer and an error whose message is the message of that
step, followed by `": "` and the message of `e`; the four messages are pairwise
distinct. -/
theorem C6_error_messages (d : Deps σ Cred Client) (tenantID resource : String) (s : σ) :
    (∀ c e s1,
      d.ReadFile (d.Getenv "TOKEN_FILE_PATH" s) s = ((c, some e), s1) →
      (run d tenantID resource s).1.1 = none ∧
        ∃ err, (run d tenantID resource s).1.2 = some err ∧
          err.Error = "failed to read service account token" ++ ": " ++ e.Error) ∧
    (∀ c s1 cr e s2,
      d.ReadFile (d.Getenv "TOKEN_FILE_PATH" s) s = ((c, none), s1) →
      d.NewCredFromAssertion (string c) s1 = ((cr, some e), s2) →
      (run d tenantID resource s).1.1 = none ∧
        ∃ err, (run d tenantID resource s).1.2 = some err ∧
          err.Error = "failed to create confidential creds" ++ ": " ++ e.Error) ∧
    (∀ c s1 cr s2 app e s3,
      d.ReadFile (d.Getenv "TOKEN_FILE_PATH" s) s = ((c, none), s1) →
      d.NewCredFromAssertion (string c) s1 = ((cr, none), s2) →
      d.New (d.Getenv "AZURE_CLIENT_ID" s) cr
        (Sprintf "https://login.microsoftonline.com/%s/oauth2/token" tenantID) s2 =
          ((app, some e), s3) →
      (run d tenantID resource s).1.1 = none ∧
        ∃ err, (run d tenantID resource s).1.2 = some err ∧
          err.Error = "failed to create confidential client app" ++ ": " ++ e.Error) ∧
    (∀ c s1 cr s2 app s3 res e s4,
      d.ReadFile (d.Getenv "TOKEN_FILE_PATH" s) s = ((c, none), s1) →
      d.NewCredFromAssertion (string c) s1 = ((cr, none), s2) →
      d.New (d.Getenv "AZURE_CLIENT_ID" s) cr
        (Sprintf "https://login.microsoftonline.com/%s/oauth2/token" tenantID) s2 =
          ((app, none), s3) →
      d.AcquireTokenByCredential app [normalizeScope resource] s3 = ((res, some e), s4) →
      (run d tenantID resource s).1.1 = none ∧
        ∃ err, (run d tenantID resource s).1.2 = some err ∧
          err.Error = "failed to get token" ++ ": " ++ e.Error) ∧
    ["failed to read service account token", "failed to create confidential creds",
      "failed to create confidential client app", "failed to get token"].Pairwise (· ≠ ·) := by
  refine ⟨?_, ?_, ?_, ?_, by decide⟩
  · intro c e s1 h1
    rw [run_readFile_fails d tenantID resource s c e s1 h1]
    exact ⟨rfl, _, rfl, (Errorf_msg e).1⟩
  · intro c s1 cr e s2 h1 h2
    rw [run_newCred_fails d tenantID resource s c s1 cr e s2 h1 h2]
    exact ⟨rfl, _, rfl, (Errorf_msg e).2.1⟩
  · intro c s1 cr s2 app e s3 h1 h2 h3
    rw [run_new_fails d tenantID resource s c s1 cr s2 app e s3 h1 h2 h3]
    exact ⟨rfl, _, rfl, (Errorf_msg e).2.2.1⟩
  · intro c s1 cr s2 app s3 res e s4 h1 h2 h3 h4
    rw [run_acquire_fails d tenantID resource s c s1 cr s2 app s3 res e s4 h1 h2 h3 h4]
    exact ⟨rfl, _, rfl, (Errorf_msg e).2.2.2⟩

/-- Witness of C6: the sample host with a missing token file, and with each of the three
later steps failing in turn. -/
theorem C6_error_messages_witness :
    ((run (sampleDeps "/missing" none) "tenant-1" "https://vault.azure.net" 0).1.1 = none ∧
      ∃ err, (run (sampleDeps "/missing" none) "tenant-1" "https://vault.azure.net" 0).1.2 =
          some err ∧
        err.Error = "failed to read service account token" ++ ": " ++
          "open /missing: no such file or directory") ∧
    ((run (sampleDeps samplePath (some .newCred)) "tenant-1" "https://vault.azure.net" 0).1.1 =
        none ∧
      ∃ err, (run (sampleDeps samplePath (some .newCred)) "tenant-1"
          "https://vault.azure.net" 0).1.2 = some err ∧
        err.Error = "failed to create confidential creds" ++ ": " ++ "bad assertion") ∧
    ((run (sampleDeps samplePath (some .newClient)) "tenant-1" "https://vault.azure.net"
        0).1.1 = none ∧
      ∃ err, (run (sampleDeps samplePath (some .newClient)) "tenant-1"
          "https://vault.azure.net" 0).1.2 = some err ∧
        err.Error = "failed to create confidential client app" ++ ": " ++ "bad authority") ∧
    ((run (sampleDeps samplePath (some .acquireToken)) "tenant-1" "https://vault.azure.net"
        0).1.1 = none ∧
      ∃ err, (run (sampleDeps samplePath (some .acquireToken)) "tenant-1"
          "https://vault.azure.net" 0).1.2 = some err ∧
        err.Error = "failed to get token" ++ ": " ++ "invalid_grant") :=
  ⟨(C6_error_messages (sampleDeps "/missing" none) "tenant-1" "https://vault.azure.net" 0).1
      [] ⟨"open /missing: no such file or directory"⟩ 1 (by decide),
    (C6_error_messages (sampleDeps samplePath (some .newCred)) "tenant-1"
      "https://vault.azure.net" 0).2.1
      "header.payload.signature\n".data 1 "" ⟨"bad assertion"⟩ 2 (by decide) (by decide),
    (C6_error_messages (sampleDeps samplePath (some .newClient)) "tenant-1"
      "https://vault.azure.net" 0).2.2.1
      "header.payload.signature\n".data 1 "header.payload.signature\n" 2 ""
      ⟨"bad authority"⟩ 3 (by decide) (by decide) (by decide),
    (C6_error_messages (sampleDeps samplePath (some .acquireToken)) "tenant-1"
      "https://vault.azure.net" 0).2.2.2.1
      "header.payload.signature\n".data 1 "header.payload.signature\n" 2
      "client-a@https://login.microsoftonline.com/tenant-1/oauth2/token" 3
      ⟨"", 0, [], []⟩ ⟨"invalid_grant"⟩ 4 (by decide) (by decide) (by decide) (by decide)⟩

/-! ## Arguments and number of the calls -/

/-- C7: for every tenant identifier, a call of `confidential.New` made by the invocation
receives the value of `AZURE_CLIENT_ID` unchanged and the authority
`"https://login.microsoftonline.com/" ++ tenantID ++ "/oauth2/token"`; and that call is
made as soon as the read and the credential construction succeed. -/
theorem C7_authority_and_client (d : Deps σ Cred Client) (tenantID resource : String)
    (s : σ) :
    (∀ clientID cr authority,
      Call.New clientID cr authority ∈ calls d tenantID resource s →
      clientID = d.Getenv "AZURE_CLIENT_ID" s ∧
        authority = "https://login.microsoftonline.com/" ++ tenantID ++ "/oauth2/token") ∧
    (∀ c s1 cr s2,
      d.ReadFile (d.Getenv "TOKEN_FILE_PATH" s) s = ((c, none), s1) →
      d.NewCredFromAssertion (string c) s1 = ((cr, none), s2) →
      Call.New (d.Getenv "AZURE_CLIENT_ID" s) cr
        ("https://login.microsoftonline.com/" ++ tenantID ++ "/oauth2/token") ∈
          calls d tenantID resource s) := by
  constructor
  · intro clientID cr authority h
    obtain ⟨c, cr', app, hc⟩ := calls_cases d tenantID resource s
    rcases hc with ⟨_, _, hc | hc | hc | hc⟩ | ⟨_, _, hc⟩ <;>
      · rw [hc] at h
        simp at h
        try exact ⟨h.1, h.2.2.trans (authority_eq tenantID)⟩
  · intro c s1 cr s2 h1 h2
    rw [← authority_eq tenantID]
    rcases h3 : d.New (d.Getenv "AZURE_CLIENT_ID" s) cr
      (Sprintf "https://login.microsoftonline.com/%s/oauth2/token" tenantID) s2 with
      ⟨⟨app, _ | e⟩, s3⟩
    · rcases h4 : d.AcquireTokenByCredential app [normalizeScope resource] s3 with
        ⟨⟨res, _ | e⟩, s4⟩
      · simp [calls, run_success d tenantID resource s c s1 cr s2 app s3 res s4 h1 h2 h3 h4]
      · simp [calls,
          run_acquire_fails d tenantID resource s c s1 cr s2 app s3 res e s4 h1 h2 h3 h4]
    · simp [calls, run_new_fails d tenantID resource s c s1 cr s2 app e s3 h1 h2 h3]

/-- Witness of C7: the sample host, tenant `tenant-1`. -/
theorem C7_authority_and_client_witness :
    Call.New "client-a" "header.payload.signature\n"
        ("https://login.microsoftonline.com/" ++ "tenant-1" ++ "/oauth2/token") ∈
        calls (sampleDeps samplePath none) "tenant-1" "https://vault.azure.net" 0 ∧
      ("client-a" = (sampleDeps samplePath none).Getenv "AZURE_CLIENT_ID" 0 ∧
        "https://login.microsoftonline.com/tenant-1/oauth2/token" =
          "https://login.microsoftonline.com/" ++ "tenant-1" ++ "/oauth2/token") :=
  ⟨(C7_authority_and_client (sampleDeps samplePath none) "tenant-1"
      "https://vault.azure.net" 0).2 "header.payload.signature\n".data 1
      "header.payload.signature\n" 2 (by decide) (by decide),
    (C7_authority_and_client (sampleDeps samplePath none) "tenant-1"
      "https://vault.azure.net" 0).1 "client-a" "header.payload.signature\n"
      "https://login.microsoftonline.com/tenant-1/oauth2/token" (by decide)⟩

/-- C8: every invocation performs the file read exactly once and the token request at
most once, the read before the request; its steps are an initial part of read,
credential construction, client construction, token request, so that no step is
attempted twice; and a successful invocation performs the token request exactly once. -/
theorem C8_calls_once (d : Deps σ Cred Client) (tenantID resource : String) (s : σ) :
    (steps d tenantID resource s).count .readFile = 1 ∧
      (steps d tenantID resource s).count .acquireToken ≤ 1 ∧
      (steps d tenantID resource s).head? = some .readFile ∧
      (Step.acquireToken ∈ steps d tenantID resource s →
        (steps d tenantID resource s).indexOf .readFile <
          (steps d tenantID resource s).indexOf .acquireToken) ∧
      steps d tenantID resource s <+: [.readFile, .newCred, .newClient, .acquireToken] ∧
      (steps d tenantID resource s).Nodup ∧
      ((run d tenantID resource s).1.2 = none →
        steps d tenantID resource s = [.readFile, .newCred, .newClient, .acquireToken] ∧
          (steps d tenantID resource s).count .acquireToken = 1) := by
  obtain ⟨c, cr, app, hc⟩ := calls_cases d tenantID resource s
  rcases hc with ⟨_, he, hc | hc | hc | hc⟩ | ⟨_, _, hc⟩
  · have hs : steps d tenantID resource s = [.readFile] := by simp [steps, hc, Call.step]
    rw [hs]
    exact ⟨by decide, by decide, by decide, by decide, by decide, by decide,
      fun h => absurd h he⟩
  · have hs : steps d tenantID resource s = [.readFile, .newCred] := by
      simp [steps, hc, Call.step]
    rw [hs]
    exact ⟨by decide, by decide, by decide, by decide, by decide, by decide,
      fun h => absurd h he⟩
  · have hs : steps d tenantID resource s = [.readFile, .newCred, .newClient] := by
      simp [steps, hc, Call.step]
    rw [hs]
    exact ⟨by decide, by decide, by decide, by decide, by decide, by decide,
      fun h => absurd h he⟩
  · have hs : steps d tenantID resource s =
        [.readFile, .newCred, .newClient, .acquireToken] := by
      simp [steps, hc, Call.step]
    rw [hs]
    exact ⟨by decide, by decide, by decide, by decide, by decide, by decide,
      fun _ => ⟨rfl, by decide⟩⟩
  · have hs : steps d tenantID resource s =
        [.readFile, .newCred, .newClient, .acquireToken] := by
      simp [steps, hc, Call.step]
    rw [hs]
    exact ⟨by decide, by decide, by decide, by decide, by decide, by decide,
      fun _ => ⟨rfl, by decide⟩⟩

/-- Witness of C8: a successful invocation on the sample host. -/
theorem C8_calls_once_witness :
    (run (sampleDeps samplePath none) "tenant-1" "https://vault.azure.net" 0).1.2 = none ∧
      steps (sampleDeps samplePath none) "tenant-1" "https://vault.azure.net" 0 =
        [.readFile, .newCred, .newClient, .acquireToken] ∧
      (steps (sampleDeps samplePath none) "tenant-1" "https://vault.azure.net" 0).count
        .acquireToken = 1 :=
  ⟨by decide,
    (C8_calls_once (sampleDeps samplePath none) "tenant-1" "https://vault.azure.net"
      0).2.2.2.2.2.2 (by decide)⟩

end MsalGo
